import Mathlib

/-!
Shallow embedding of the haptic-node firmware `Vibration_Unit.c`
(PIC16F18313 variant, `src/unnamed/part_000`), covering:

* the Duty Mapper (`duty_pct = duty5_raw * 100 / 32`, and the LUT variant
  `duty_cycle_lut_5bit` from `src/Dev/Gabriel/Vibration_Unit.c`),
* the Bridge Driver primitives (`coast_both`, `route_halfcycle`, `set_pwm10`),
* the Sine Engine tick (the `TMR1IF` arm of the ISR),
* the Square Engine window logic (`square_processing`, `TMR2IF` arm),
* the Protocol State Machine (`UART_processing`, `make_addr_byte`),
* the receive-fault handling (the `RCIF` arm of the ISR).

Machine integers are modelled as `Nat` with explicit `% 2^w` at the points
where the C code performs a narrowing cast; signed sample values are `Int`.
Hardware register writes are modelled as fields of an explicit state record
`St`, and each modelled step returns the new state together with a trace of
observable events (`Ev`), so that ordering properties (break-before-make,
stop-effect order) can be stated about the event trace.
-/

/-- Observable events emitted by the modelled firmware steps.  Each
constructor corresponds to one kind of register/state write in the C source:
`coast` is a call to `coast_both()`, `route g` a call to
`route_halfcycle(g)`, `pwm v` a call to `set_pwm10` storing the 10-bit value
`v`, `t1on`/`t1ie`/`t2on`/`t2ie` are writes to the Timer1/Timer2 run and
interrupt-enable bits, `cwgEn` a write to `CWG1CON0bits.EN`, `pps1`/`pps0`
direct writes to `RA1PPS`/`RA0PPS`, `duty` a write of the committed
`duty_pct`, `stage` a write of the protocol state counter, `tx b` a call to
`UART_Write(b)`, and `rxReset` the `CREN` off/on receiver reset. -/
inductive Ev : Type
  | coast : Ev
  | route : Int → Ev
  | pwm : Nat → Ev
  | t1on : Bool → Ev
  | t1ie : Bool → Ev
  | t2on : Bool → Ev
  | t2ie : Bool → Ev
  | cwgEn : Bool → Ev
  | pps1 : Nat → Ev
  | pps0 : Nat → Ev
  | duty : Nat → Ev
  | stage : Nat → Ev
  | tx : Nat → Ev
  | rxReset : Ev
  deriving DecidableEq, Repr

/-- Firmware state: the `static volatile` variables of `Vibration_Unit.c`
together with the hardware registers the claims are about.  `state` is the
protocol stage counter (0 = addr/idle, 1 = await duty, 2 = await wave+freq);
`dc10` is the 10-bit PWM duty register written by `set_pwm10` (the combined
`CCPR1H`/`CCPR1L<7:6>` value); `pola`/`polb` are `CWG1CON1bits.POLA/POLB`;
`trisa0`/`trisa1` are the pin tristate bits (`true` = input/detached). -/
structure St : Type where
  state : Nat
  wave_mode : Bool
  duty5_raw : Nat
  duty_pct : Nat
  freq_index : Nat
  uart_led_flag : Bool
  phase_idx : Nat
  last_sign : Int
  t1_reload : Nat
  scale : Nat
  index200 : Nat
  cwg_flag : Bool
  duty_flag : Bool
  square_tick : Bool
  ra0pps : Nat
  ra1pps : Nat
  lata0 : Bool
  lata1 : Bool
  trisa0 : Bool
  trisa1 : Bool
  cwg_en : Bool
  pola : Bool
  polb : Bool
  dc10 : Nat
  pr2 : Nat
  t2ckps : Nat
  t1on : Bool
  t1ie : Bool
  t2on : Bool
  t2ie : Bool
  deriving DecidableEq, Repr

/-- PPS selector code routing CCP1 (the PWM carrier) onto a pin
(`#define CCP1_PPS_CODE 0x0C`). -/
def CCP1_PPS_CODE : Nat := 12

/-- Minimum-drive floor constant (`#define MIN_DRIVE_TKS 2u`).  Note: the
constant is defined in the source but not referenced by any code path of
this variant. -/
def MIN_DRIVE_TKS : Nat := 2

/-- Signed 64-entry sine sample table `SINE64_8`. -/
def SINE64_8 : List Int :=
  [0, 12, 25, 37, 49, 60, 71, 81,
   90, 99, 106, 113, 118, 122, 125, 127,
   127, 127, 125, 122, 118, 113, 106, 99,
   90, 81, 71, 60, 49, 37, 25, 12,
   0, -12, -25, -37, -49, -60, -71, -81,
   -90, -99, -106, -113, -118, -122, -125, -127,
   -127, -127, -125, -122, -118, -113, -106, -99,
   -90, -81, -71, -60, -49, -37, -25, -12]

/-- Table lookup into `SINE64_8` (indices produced by the tick are `< 64`). -/
def sineSample (i : Nat) : Int := SINE64_8.getD i 0

/-- Timer1 reload table `T1_RELOAD` (indexed by `freq_index & 7`). -/
def T1_RELOAD : List Nat :=
  [65536 - 127, 65536 - 108, 65536 - 92, 65536 - 78,
   65536 - 66, 65536 - 57, 65536 - 49, 65536 - 41]

/-- Square-mode Timer2 period table `PR_val`. -/
def PR_val : List Nat := [85, 72, 60, 52, 44, 37, 32, 27]

/-- The Duty Mapper of the canonical variant:
`duty_pct = (uint8_t)(((uint16_t)duty5_raw * 100u) / 32u)` (line 212).
The C code applies the same formula for both waveforms. -/
def dutyMap (c : Nat) : Nat := (c * 100) / 32

/-- The LUT Duty Mapper variant `duty_cycle_lut_5bit` from
`src/Dev/Gabriel/Vibration_Unit.c`. -/
def duty_cycle_lut_5bit : List Nat :=
  [0, 0, 0, 1, 2, 3, 4, 5, 7, 8, 10, 13, 15, 18, 20, 23,
   27, 30, 34, 38, 42, 46, 50, 55, 60, 65, 70, 76, 82, 88, 94, 99]

/-- `coast_both()`: detach CCP1 from both pins and drive `RA0`/`RA1` low
(`RA1PPS = 0; LATA1 = 0; RA0PPS = 0; LATA0 = 0`). -/
def coast_both (s : St) : St :=
  { s with ra1pps := 0, lata1 := false, ra0pps := 0, lata0 := false }

/-- `route_halfcycle(sign)`: positive half routes the PWM carrier onto RA0
and asserts RA1; negative half routes the carrier onto RA1 and asserts RA0. -/
def route_halfcycle (sign : Int) (s : St) : St :=
  if 0 < sign then
    { s with ra0pps := CCP1_PPS_CODE, ra1pps := 0, lata1 := true, lata0 := false }
  else
    { s with ra1pps := CCP1_PPS_CODE, ra0pps := 0, lata0 := true, lata1 := false }

/-- `set_pwm10(dc10)`: store the 10-bit duty value into
`CCPR1H`/`CCPR1L<7:6>` (the hardware keeps bits [9:0] of the argument). -/
def set_pwm10 (v : Nat) (s : St) : St := { s with dc10 := v % 1024 }

/-- The carrier full-scale duty `top = 4*(PR2+1)-1` (for `PR2 = 199`,
`top = 799`).  `PR2` is an 8-bit register, so in every state the firmware
reaches `carrierTop s ≤ 1023`. -/
def carrierTop (s : St) : Nat := 4 * (s.pr2 + 1) - 1

/-- `lra_set_amp(pct)`: clamp `pct` to 100, compute the 10-bit amplitude
scale `(top*pct + 50)/100`, and if the scale is zero immediately coast the
bridge and zero the duty register. -/
def lra_set_amp (pct : Nat) (s : St) : St × List Ev :=
  let p := if 100 < pct then 100 else pct
  let top := carrierTop s
  let sc := (top * p + 50) / 100
  let s1 := { s with scale := sc }
  if sc = 0 then (set_pwm10 0 (coast_both s1), [Ev.coast, Ev.pwm 0]) else (s1, [])

/-- Next phase index of the sine tick:
`uint8_t i = phase_idx + 1u; if (i >= SINE_LEN) i = 0;`. -/
def phaseNext (s : St) : Nat :=
  let i0 := (s.phase_idx + 1) % 256
  if 64 ≤ i0 then 0 else i0

/-- Drive sign computed by the sine tick from the next sample:
`sgn = (s8 > 0) ? +1 : ((s8 < 0) ? -1 : last_sign)` — the sign of the
sample, with the previous driven sign retained at zero crossings. -/
def sgnNext (s : St) : Int :=
  let s8 := sineSample (phaseNext s)
  if 0 < s8 then 1 else if s8 < 0 then -1 else s.last_sign

/-- Forward duty computed by the sine tick:
`duty_fwd = (scale * |s8| + 64) >> 7`, clamped to `top`
(`if (duty_fwd >= top) duty_fwd = top`). -/
def dutyFwdOf (s : St) : Nat :=
  min ((s.scale * (sineSample (phaseNext s)).natAbs + 64) / 128) (carrierTop s)

/-- Sine Engine tick: the `TMR1IF` arm of the ISR.  Returns early when
`wave_mode` is square; otherwise advances the phase, computes the drive
sign, coasts when `scale == 0`, performs break-before-make re-routing when
the sign changed, and programs the duty register with `top - duty_fwd`.
The Timer1 reload rewrite at the top of the arm touches only `TMR1H/L`
and is not part of the modelled state. -/
def sineTick (s : St) : St × List Ev :=
  if s.wave_mode = false then (s, [])
  else
    let i := phaseNext s
    let sgn := sgnNext s
    if s.scale = 0 then
      (set_pwm10 0 (coast_both { s with phase_idx := i, last_sign := sgn }),
       [Ev.coast, Ev.pwm 0])
    else
      let v := carrierTop s - dutyFwdOf s
      if sgn = s.last_sign then
        (set_pwm10 v { s with phase_idx := i }, [Ev.pwm (v % 1024)])
      else
        (set_pwm10 v (route_halfcycle sgn
            (coast_both { s with phase_idx := i, last_sign := sgn })),
         [Ev.coast, Ev.route sgn, Ev.pwm (v % 1024)])

/-- Iterated sine ticks with accumulated event trace. -/
def sineTickN : Nat → St → St × List Ev
  | 0, s => (s, [])
  | n + 1, s =>
      let r1 := sineTick s
      let r2 := sineTickN n r1.1
      (r2.1, r1.2 ++ r2.2)

/-- Square Engine window predicate (from `square_processing`):
`on = (index200 < duty_pct) || (index200 >= 100 && index200 < (uint8_t)(100 + duty_pct))`.
The second comparison is against the 8-bit truncation of `100 + duty_pct`,
exactly as the C cast does. -/
def squareOn (dp i : Nat) : Bool :=
  decide (i < dp) || (decide (100 ≤ i) && decide (i < (100 + dp) % 256))

/-- `square_processing()`: evaluate the window predicate; on an ON window
latch the half-cycle polarity (edge-triggered via `cwg_flag`/`last_sign`)
and set the duty register to full scale (edge-triggered via `duty_flag`);
on an OFF window disable the CWG, tristate both pins and zero the duty
register (again edge-triggered). -/
def square_processing (s : St) : St :=
  let win := squareOn s.duty_pct s.index200
  if win then
    let half : Bool := 100 ≤ s.index200
    let hs : Int := if half then -1 else 1
    let s1 :=
      if s.cwg_flag = false ∨ ¬(s.last_sign = hs) then
        { s with cwg_en := true, pola := half, polb := half,
                 last_sign := hs, cwg_flag := true }
      else s
    if s1.duty_flag = false then
      { set_pwm10 (carrierTop s1) s1 with duty_flag := true }
    else s1
  else
    let s1 :=
      if s.cwg_flag = true then
        { s with cwg_en := false, trisa0 := true, trisa1 := true, cwg_flag := false }
      else s
    if s1.duty_flag = true then
      { set_pwm10 0 s1 with duty_flag := false }
    else s1

/-- The `TMR2IF` arm of the ISR: in square mode advance the 0..199 window
position (`index200++; if (index200 == 200) index200 = 0;`, with the 8-bit
increment modelled by `% 256`) and set the main-loop flag `square_tick`. -/
def tmr2Tick (s : St) : St :=
  if s.wave_mode = false then
    let i := (s.index200 + 1) % 256
    { s with index200 := if i = 200 then 0 else i, square_tick := true }
  else s

/-- `make_addr_byte(start, addr6)`: `((addr6 & 0x3F) << 1) | (start & 1)`,
as an 8-bit value. -/
def make_addr_byte (start addr6 : Nat) : Nat :=
  ((addr6 % 64) * 2 + start % 2) % 256

/-- `UART_processing()`: the protocol state machine, processing one received
byte `b`.  Address bytes (MSB 0) are decrement-and-forwarded when the chain
address is nonzero, trigger the STOP path when address and start flag are
both zero, and advance to the await-duty stage on an addressed START.  Data
bytes (MSB 1) are relayed when the stage is idle, stored as the duty code at
stage 1, and at stage 2 commit the command: decode waveform and frequency,
derive `duty_pct` via the Duty Mapper, and arm the selected engine. -/
def UART_processing (b0 : Nat) (s : St) : St × List Ev :=
  let b := b0 % 256
  if b / 128 = 0 then
    let addr := (b / 2) % 64
    let start := b % 2
    if addr ≠ 0 then
      ({ s with state := 0 },
       [Ev.tx (make_addr_byte start (addr - 1)), Ev.stage 0])
    else if start = 0 then
      -- STOP path: sine timing off, coast + zero duty, square timing off,
      -- pins re-attached to the (idle) CWG, command state reset.
      let s1 := { s with t1on := false, t1ie := false }
      let s2 := set_pwm10 0 (coast_both s1)
      let s3 := { s2 with t2on := false, t2ie := false }
      let s4 := { s3 with ra1pps := 8, ra0pps := 9, cwg_en := true }
      let s5 := { s4 with duty_pct := 0, cwg_flag := false, duty_flag := false,
                          square_tick := false }
      let s6 := { s5 with uart_led_flag := true, duty5_raw := 0, state := 0 }
      (s6,
       [Ev.t1on false, Ev.t1ie false, Ev.coast, Ev.pwm 0,
        Ev.t2on false, Ev.t2ie false, Ev.pps1 8, Ev.pps0 9, Ev.cwgEn true,
        Ev.duty 0, Ev.stage 0])
    else
      ({ s with state := 1 }, [Ev.stage 1])
  else
    if s.state = 0 then
      (s, [Ev.tx b])
    else if s.state = 1 then
      ({ s with duty5_raw := b % 32, state := 2 }, [Ev.stage 2])
    else
      let d2 := b % 128
      let wv : Bool := (d2 / 8) % 2 = 1
      let fi := d2 % 8
      let dp := (dutyMap s.duty5_raw) % 256
      let sc := { s with wave_mode := wv, freq_index := fi, duty_pct := dp,
                         uart_led_flag := true }
      if wv then
        -- TRUE-SINE arm: Timer2 carrier at PR2=199, CWG off, coast,
        -- Timer1 interrupt enabled, amplitude from duty_pct, reload applied.
        let a1 := set_pwm10 0 { sc with t2on := false, t2ckps := 0, pr2 := 199 }
        let a2 := { a1 with t2on := true }
        let a3 := coast_both { a2 with cwg_en := false }
        let a4 := { a3 with t1on := false, t1ie := true, phase_idx := 0, last_sign := 0 }
        let r := lra_set_amp a4.duty_pct a4
        let a5 := { r.1 with t1_reload := T1_RELOAD.getD (fi % 8) 0, t1on := true }
        let a6 := { a5 with state := 0 }
        (a6,
         [Ev.duty dp, Ev.t2on false, Ev.pwm 0, Ev.t2on true, Ev.cwgEn false,
          Ev.coast, Ev.t1on false, Ev.t1ie true] ++ r.2 ++
          [Ev.t1on false, Ev.t1on true, Ev.stage 0])
      else
        -- SQUARE arm: sine timing off, coast, pins to CWG, Timer2 at the
        -- square period table with its interrupt enabled, window reset.
        let q1 := coast_both { sc with t1on := false, t1ie := false }
        let q2 := { q1 with ra1pps := 8, ra0pps := 9, cwg_en := true }
        let q3 := { q2 with t2on := false, t2ckps := 1, pr2 := PR_val.getD fi 0 }
        let q4 := { q3 with t2on := true, t2ie := true }
        let q5 := { q4 with index200 := 0, cwg_flag := false, duty_flag := false,
                            square_tick := false, last_sign := 0, state := 0 }
        (q5,
         [Ev.duty dp, Ev.t1on false, Ev.t1ie false, Ev.coast, Ev.pps1 8,
          Ev.pps0 9, Ev.cwgEn true, Ev.t2on false, Ev.t2on true, Ev.t2ie true,
          Ev.stage 0])

/-- The `RCIF` arm of the ISR: on overrun (`OERR`) reset the receiver
(`CREN` off/on); on a frame error (`FERR`) read and discard the offending
byte and return without protocol processing; otherwise hand the byte to
`UART_processing`. -/
def rcvStep (oerr ferr : Bool) (b : Nat) (s : St) : St × List Ev :=
  let rtr := if oerr then [Ev.rxReset] else []
  if ferr then (s, rtr)
  else
    let r := UART_processing b s
    (r.1, rtr ++ r.2)

/-- Boot state after `usart_init` + `pwm_cwg_init`: stage idle, sine mode
default, frequency index 3, `PR2 = 199`, both timers and the CWG off, the
bridge coasted. -/
def st0 : St :=
  { state := 0, wave_mode := true, duty5_raw := 0, duty_pct := 0,
    freq_index := 3, uart_led_flag := false,
    phase_idx := 0, last_sign := 0, t1_reload := 0, scale := 0,
    index200 := 0, cwg_flag := false, duty_flag := false, square_tick := false,
    ra0pps := 0, ra1pps := 0, lata0 := false, lata1 := false,
    trisa0 := false, trisa1 := false,
    cwg_en := false, pola := false, polb := false,
    dc10 := 0, pr2 := 199, t2ckps := 0,
    t1on := false, t1ie := false, t2on := false, t2ie := false }

/-- The spec's `addressed` flag, expressed over the concrete code state:
the node is inside an addressed multi-byte command exactly while the stage
counter is nonzero (stages 1 and 2 relay nothing and accept command data). -/
def addressedOf (s : St) : Bool := decide (s.state ≠ 0)

/-- Engine-visible projection of the state used for STOP idempotence:
command state, duty-code latch, duty register, timer run/interrupt bits,
pin routing and latches, CWG enable, and the square engine latches. -/
def engineVisible (s : St) :
    Nat × Nat × Nat × Nat × Bool × Bool × Bool × Bool ×
      Nat × Nat × Bool × Bool × Bool × Bool × Bool × Bool :=
  (s.duty_pct, s.state, s.duty5_raw, s.dc10,
   s.t1on, s.t1ie, s.t2on, s.t2ie,
   s.ra0pps, s.ra1pps, s.lata0, s.lata1,
   s.cwg_en, s.cwg_flag, s.duty_flag, s.square_tick)

/-- Static output level of a bridge leg when no carrier edge is present
(duty register zero): a detached pin (`PPS = 0`) shows its latch, a pin
routed to CCP1 shows the idle-low carrier, and a pin routed to a CWG output
shows that output's polarity bit. -/
def legLevelStatic (pps : Nat) (lat pol : Bool) : Bool :=
  if pps = 0 then lat else if pps = CCP1_PPS_CODE then false else pol

/-- Coast state of the bridge: duty register zero (so the carrier is
statically low) and both legs presenting the same static level
(`RA0` is routed to CWG1B, `RA1` to CWG1A when attached to the CWG). -/
def coasted (s : St) : Prop :=
  s.dc10 = 0 ∧
    legLevelStatic s.ra0pps s.lata0 s.polb = legLevelStatic s.ra1pps s.lata1 s.pola

/-- Break-before-make check over an event trace: a `route` event is allowed
only when the immediately preceding event is a `coast`. -/
def cbr : Bool → List Ev → Bool
  | _, [] => true
  | _, Ev.coast :: r => cbr true r
  | pc, Ev.route _ :: r => pc && cbr false r
  | _, _ :: r => cbr false r

/-- Index of the first occurrence of an event in a trace. -/
def evIdx (tr : List Ev) (e : Ev) : Nat := tr.findIdx (fun x => x == e)

/-- The effect order asserted by the STOP claim: sine timer and interrupt
disabled first, then the square window-advance interrupt disabled, then the
coast and duty-register zeroing, then the CommandState reset. -/
def c2Order (tr : List Ev) : Prop :=
  Ev.t1on false ∈ tr ∧ Ev.t1ie false ∈ tr ∧ Ev.t2ie false ∈ tr ∧
  Ev.coast ∈ tr ∧ Ev.pwm 0 ∈ tr ∧ Ev.duty 0 ∈ tr ∧ Ev.stage 0 ∈ tr ∧
  evIdx tr (Ev.t1on false) < evIdx tr (Ev.t2ie false) ∧
  evIdx tr (Ev.t1ie false) < evIdx tr (Ev.t2ie false) ∧
  evIdx tr (Ev.t2ie false) < evIdx tr Ev.coast ∧
  evIdx tr (Ev.t2ie false) < evIdx tr (Ev.pwm 0) ∧
  evIdx tr Ev.coast < evIdx tr (Ev.duty 0) ∧
  evIdx tr Ev.coast < evIdx tr (Ev.stage 0)

/-- Event trace of the STOP path as the code performs it. -/
def stopTrace : List Ev :=
  [Ev.t1on false, Ev.t1ie false, Ev.coast, Ev.pwm 0,
   Ev.t2on false, Ev.t2ie false, Ev.pps1 8, Ev.pps0 9, Ev.cwgEn true,
   Ev.duty 0, Ev.stage 0]

/-- Predicate for transmit events. -/
def isTx : Ev → Bool
  | Ev.tx _ => true
  | _ => false

/-- C6: the Duty Mapper satisfies `map(0) = 0`, is monotonically
non-decreasing in the duty code over `0..31`, and `map(31) ≤ 100` — both for
the formula mapper of the canonical variant (which is applied identically
for either waveform) and for the LUT variant `duty_cycle_lut_5bit`. -/
theorem duty_map_contract (c : Nat) (h : c < 31) :
    dutyMap 0 = 0 ∧ dutyMap c ≤ dutyMap (c + 1) ∧ dutyMap 31 ≤ 100 ∧
    duty_cycle_lut_5bit.getD 0 0 = 0 ∧
    duty_cycle_lut_5bit.getD c 0 ≤ duty_cycle_lut_5bit.getD (c + 1) 0 ∧
    duty_cycle_lut_5bit.getD 31 0 ≤ 100 := by
  revert h
  revert c
  decide

theorem duty_map_contract_witness :
    7 < 31 ∧
      (dutyMap 0 = 0 ∧ dutyMap 7 ≤ dutyMap 8 ∧ dutyMap 31 ≤ 100 ∧
       duty_cycle_lut_5bit.getD 0 0 = 0 ∧
       duty_cycle_lut_5bit.getD 7 0 ≤ duty_cycle_lut_5bit.getD 8 0 ∧
       duty_cycle_lut_5bit.getD 31 0 ≤ 100) :=
  ⟨by decide, duty_map_contract 7 (by decide)⟩

/-- C10: every wire-reachable committed `duty_pct = (duty_code*100)/32` is
at most 96, so `100 + duty_pct ≤ 196` and the 8-bit truncation in the Square
Engine's window comparison `index200 < (uint8_t)(100 + duty_pct)` never
wraps (the cast is the identity). -/
theorem duty_pct_no_wrap (c : Nat) (h : c < 32) :
    dutyMap c ≤ 96 ∧ 100 + dutyMap c ≤ 196 ∧
    (100 + dutyMap c) % 256 = 100 + dutyMap c := by
  revert h
  revert c
  decide

theorem duty_pct_no_wrap_witness :
    31 < 32 ∧
      (dutyMap 31 ≤ 96 ∧ 100 + dutyMap 31 ≤ 196 ∧
       (100 + dutyMap 31) % 256 = 100 + dutyMap 31) :=
  ⟨by decide, duty_pct_no_wrap 31 (by decide)⟩

set_option maxRecDepth 40000 in
/-- C4: for every committed `duty_pct = d ≤ 100`, the Square Engine's window
predicate is ON at exactly `2d` of the 200 window positions of a full cycle
— `d` positions in each 100-position half — and OFF at the remaining
`200 - 2d` positions. -/
theorem square_window_count (d : Nat) (h : d < 101) :
    (List.range 200).countP (fun p => squareOn d p) = 2 * d ∧
    (List.range 100).countP (fun p => squareOn d p) = d ∧
    (List.range 100).countP (fun p => squareOn d (100 + p)) = d ∧
    (List.range 200).countP (fun p => !squareOn d p) = 200 - 2 * d := by
  revert h
  revert d
  decide

theorem square_window_count_witness :
    7 < 101 ∧
      ((List.range 200).countP (fun p => squareOn 7 p) = 2 * 7 ∧
       (List.range 100).countP (fun p => squareOn 7 p) = 7 ∧
       (List.range 100).countP (fun p => squareOn 7 (100 + p)) = 7 ∧
       (List.range 200).countP (fun p => !squareOn 7 p) = 200 - 2 * 7) :=
  ⟨by decide, square_window_count 7 (by decide)⟩

/-- C2 (counterexample): the STOP path does not perform its effects in the
order the claim states.  The claim puts the square window-advance interrupt
disable before the coast/duty-zeroing, but in the actual STOP trace the
coast and the duty-register zeroing happen before `TMR2IE` is cleared. -/
theorem stop_claimed_order_false : ¬ c2Order (UART_processing 0 st0).2 := by
  unfold c2Order evIdx
  decide

/-- C2 (amended): processing an addressed STOP byte performs, before
returning: disable the sine phase timer and its interrupt, coast the bridge
and zero the duty register, disable the square window-advance timer and
interrupt, re-attach the bridge pins to the (idle) CWG, and reset
CommandState (`duty_pct = 0`, stage Idle, square-engine latches cleared,
duty-code latch cleared) — in exactly that order, i.e. with the coast
between the sine disable and the square disable.  The resulting state is
the prior state with exactly those fields overwritten (the sine engine's
phase/sign/scale variables are left stale but inert, since the phase timer
and its interrupt are off). -/
theorem stop_effect_order (s : St) :
    (UART_processing 0 s).1 =
      { s with t1on := false, t1ie := false,
               ra1pps := 8, ra0pps := 9, lata0 := false, lata1 := false,
               dc10 := 0, t2on := false, t2ie := false, cwg_en := true,
               duty_pct := 0, cwg_flag := false, duty_flag := false,
               square_tick := false, uart_led_flag := true,
               duty5_raw := 0, state := 0 } ∧
    (UART_processing 0 s).2 = stopTrace := by
  exact ⟨rfl, rfl⟩

/-- C3: STOP is idempotent on the engine-visible state — the engine-visible
projection of the post-STOP state is the same constant regardless of the
prior state (armed or not): CommandState reset (`duty_pct = 0`, stage Idle),
duty register zero, both timing sources and their interrupts disabled; and
the bridge is coasted (given that the CWG polarity bits are equal, which
holds in every reachable state because the code only ever writes `POLA` and
`POLB` together with the same value). -/
theorem stop_idempotent (s1 s2 : St) :
    engineVisible (UART_processing 0 s1).1 = engineVisible (UART_processing 0 s2).1 ∧
    (UART_processing 0 s1).1.duty_pct = 0 ∧
    (UART_processing 0 s1).1.state = 0 ∧
    (UART_processing 0 s1).1.dc10 = 0 ∧
    (UART_processing 0 s1).1.t1on = false ∧
    (UART_processing 0 s1).1.t1ie = false ∧
    (UART_processing 0 s1).1.t2on = false ∧
    (UART_processing 0 s1).1.t2ie = false ∧
    (s1.pola = s1.polb → coasted (UART_processing 0 s1).1) := by
  refine ⟨rfl, rfl, rfl, rfl, rfl, rfl, rfl, rfl, ?_⟩
  intro h
  refine ⟨rfl, ?_⟩
  show legLevelStatic 9 false s1.polb = legLevelStatic 8 false s1.pola
  simp [legLevelStatic, CCP1_PPS_CODE, h]

/-- C3 witness at two concrete prior states: `st0` (no engine armed) and a
state with the Sine Engine armed at a nonzero amplitude. -/
theorem stop_idempotent_witness :
    engineVisible (UART_processing 0 st0).1 =
      engineVisible (UART_processing 0
        { st0 with wave_mode := true, scale := 24, t1on := true, t1ie := true }).1 ∧
    coasted (UART_processing 0 st0).1 :=
  ⟨(stop_idempotent st0
      { st0 with wave_mode := true, scale := 24, t1on := true, t1ie := true }).1,
   (stop_idempotent st0 st0).2.2.2.2.2.2.2.2 rfl⟩

/-- C5 (counterexample): forwarding an address byte with a nonzero chain
address does not leave `addressed` unchanged — if the node is mid-command
(stage 1), the forward path resets the stage counter to Idle, so the
`addressed` flag (stage ≠ 0) changes from true to false.  Concrete input:
byte `0x04` (chain address 2, start 0) received at stage 1. -/
theorem addr_forward_addressed_changes :
    addressedOf { st0 with state := 1 } = true ∧
    addressedOf (UART_processing 4 { st0 with state := 1 }).1 = false := by
  decide

/-- C5 (amended): for every received address byte with chain address
`k > 0`, the node emits downstream exactly one address byte carrying chain
address `k - 1` and the same start flag, and `waveform`, `duty_code`,
`duty_pct` and `freq_index` are unchanged; the protocol stage counter is
reset to Idle (which clears the `addressed` flag if the node was
mid-command). -/
theorem addr_forward (s : St) (b : Nat)
    (h1 : b % 256 < 128) (h2 : (b % 256 / 2) % 64 ≠ 0) :
    (UART_processing b s).2 =
      [Ev.tx (make_addr_byte (b % 256 % 2) ((b % 256 / 2) % 64 - 1)), Ev.stage 0] ∧
    make_addr_byte (b % 256 % 2) ((b % 256 / 2) % 64 - 1) / 128 = 0 ∧
    (make_addr_byte (b % 256 % 2) ((b % 256 / 2) % 64 - 1) / 2) % 64 =
      (b % 256 / 2) % 64 - 1 ∧
    make_addr_byte (b % 256 % 2) ((b % 256 / 2) % 64 - 1) % 2 = b % 256 % 2 ∧
    (UART_processing b s).1.wave_mode = s.wave_mode ∧
    (UART_processing b s).1.duty5_raw = s.duty5_raw ∧
    (UART_processing b s).1.duty_pct = s.duty_pct ∧
    (UART_processing b s).1.freq_index = s.freq_index ∧
    (UART_processing b s).1.state = 0 := by
  have hb : b % 256 / 128 = 0 := by omega
  have hk : (b % 256 / 2) % 64 < 64 := Nat.mod_lt _ (by omega)
  have hk1 : 1 ≤ (b % 256 / 2) % 64 := Nat.one_le_iff_ne_zero.mpr h2
  have hstep : UART_processing b s =
      ({ s with state := 0 },
       [Ev.tx (make_addr_byte (b % 256 % 2) ((b % 256 / 2) % 64 - 1)), Ev.stage 0]) := by
    simp [UART_processing, hb, h2]
  rw [hstep]
  refine ⟨rfl, ?_, ?_, ?_, rfl, rfl, rfl, rfl, rfl⟩ <;>
    · unfold make_addr_byte
      omega

/-- C5 witness at the concrete address byte `0x05` (chain address 2,
start 1) received in the boot state. -/
theorem addr_forward_witness :
    (UART_processing 5 st0).2 =
      [Ev.tx (make_addr_byte (5 % 256 % 2) ((5 % 256 / 2) % 64 - 1)), Ev.stage 0] ∧
    make_addr_byte (5 % 256 % 2) ((5 % 256 / 2) % 64 - 1) / 128 = 0 ∧
    (make_addr_byte (5 % 256 % 2) ((5 % 256 / 2) % 64 - 1) / 2) % 64 =
      (5 % 256 / 2) % 64 - 1 ∧
    make_addr_byte (5 % 256 % 2) ((5 % 256 / 2) % 64 - 1) % 2 = 5 % 256 % 2 ∧
    (UART_processing 5 st0).1.wave_mode = st0.wave_mode ∧
    (UART_processing 5 st0).1.duty5_raw = st0.duty5_raw ∧
    (UART_processing 5 st0).1.duty_pct = st0.duty_pct ∧
    (UART_processing 5 st0).1.freq_index = st0.freq_index ∧
    (UART_processing 5 st0).1.state = 0 :=
  addr_forward st0 5 (by decide) (by decide)

/-- C1: break-before-make in the Sine Engine tick.  In every tick trace a
routing event only ever occurs immediately after a coast event; whenever the
computed drive sign differs from `last_sign` (with nonzero amplitude) the
trace is exactly coast-then-route-then-duty-write; when the sign is
unchanged the tick performs no routing at all; and at zero amplitude the
tick only coasts. -/
theorem sine_break_before_make (s : St) :
    cbr false (sineTick s).2 = true ∧
    (s.wave_mode = true → s.scale ≠ 0 → ¬ sgnNext s = s.last_sign →
      ∃ v, (sineTick s).2 = [Ev.coast, Ev.route (sgnNext s), Ev.pwm v]) ∧
    (s.wave_mode = true → s.scale ≠ 0 → sgnNext s = s.last_sign →
      ∃ v, (sineTick s).2 = [Ev.pwm v]) ∧
    (s.wave_mode = true → s.scale = 0 → (sineTick s).2 = [Ev.coast, Ev.pwm 0]) := by
  refine ⟨?_, ?_, ?_, ?_⟩
  · by_cases hw : s.wave_mode = false
    · simp [sineTick, hw, cbr]
    · by_cases hs : s.scale = 0
      · simp [sineTick, hw, hs, cbr]
      · by_cases hg : sgnNext s = s.last_sign
        · simp [sineTick, hw, hs, hg, cbr]
        · simp [sineTick, hw, hs, hg, cbr]
  · intro hw hs hg
    exact ⟨(carrierTop s - dutyFwdOf s) % 1024, by simp [sineTick, hw, hs, hg]⟩
  · intro hw hs hg
    exact ⟨(carrierTop s - dutyFwdOf s) % 1024, by simp [sineTick, hw, hs, hg]⟩
  · intro hw hs
    simp [sineTick, hw, hs]

/-- Concrete armed state for the C1 witness: sine mode, nonzero amplitude,
about to cross from the negative half-cycle into a positive sample. -/
def sWit1 : St :=
  { st0 with wave_mode := true, scale := 24, phase_idx := 30, last_sign := -1 }

/-- C1 witness: at `sWit1` the sign differs from `last_sign` and the tick
trace is exactly coast, route, duty write. -/
theorem sine_break_before_make_witness :
    ∃ v, (sineTick sWit1).2 = [Ev.coast, Ev.route (sgnNext sWit1), Ev.pwm v] :=
  (sine_break_before_make sWit1).2.1 (by decide) (by decide) (by decide)

/-- Unfolding step for iterated sine ticks. -/
theorem sineTickN_succ (n : Nat) (s : St) :
    sineTickN (n + 1) s =
      ((sineTickN n (sineTick s).1).1,
       (sineTick s).2 ++ (sineTickN n (sineTick s).1).2) := rfl

/-- Shape of a sine tick at zero amplitude: coast, zero the duty register,
record the sign; phase advances, `wave_mode` and `scale` are untouched. -/
theorem sineTick_scale_zero (s : St) (hw : s.wave_mode = true) (hs : s.scale = 0) :
    sineTick s =
      (set_pwm10 0 (coast_both
        { s with phase_idx := phaseNext s, last_sign := sgnNext s }),
       [Ev.coast, Ev.pwm 0]) := by
  simp [sineTick, hw, hs]

/-- Iterated sine ticks at zero amplitude keep the duty register at zero and
produce only coast/zero-duty events. -/
theorem sineTickN_scale_zero (n : Nat) :
    ∀ s : St, s.wave_mode = true → s.scale = 0 → s.dc10 = 0 →
      (sineTickN n s).1.dc10 = 0 ∧
      (sineTickN n s).2 = (List.replicate n [Ev.coast, Ev.pwm 0]).flatten := by
  induction n with
  | zero => exact fun s _ _ hd => ⟨hd, rfl⟩
  | succ n ih =>
      intro s hw hs hd
      have h1 := sineTick_scale_zero s hw hs
      have hw' : (sineTick s).1.wave_mode = true := by rw [h1]; exact hw
      have hs' : (sineTick s).1.scale = 0 := by rw [h1]; exact hs
      have hd' : (sineTick s).1.dc10 = 0 := by rw [h1]; rfl
      have hrec := ih (sineTick s).1 hw' hs' hd'
      rw [sineTickN_succ]
      refine ⟨hrec.1, ?_⟩
      rw [hrec.2, h1, List.replicate_succ]
      rfl

/-- C7: after a command commit in sine mode with `duty_code = 0` (so the
committed `duty_pct` and hence `amplitude_scale` are zero), the commit
itself leaves the duty register at zero, and every subsequent Sine Engine
tick coasts the bridge and writes 0 to the duty register — the duty
register never becomes nonzero over any number of ticks (only a new commit
can change `scale`). -/
theorem sine_coast_on_zero (s : St) (b n : Nat)
    (h1 : s.state = 2) (h2 : s.duty5_raw = 0)
    (h3 : 128 ≤ b % 256) (h4 : (b % 256 % 128 / 8) % 2 = 1) :
    (UART_processing b s).1.wave_mode = true ∧
    (UART_processing b s).1.scale = 0 ∧
    (UART_processing b s).1.dc10 = 0 ∧
    (sineTickN n (UART_processing b s).1).1.dc10 = 0 ∧
    (sineTickN n (UART_processing b s).1).2 =
      (List.replicate n [Ev.coast, Ev.pwm 0]).flatten := by
  have hb : ¬ (b % 256 / 128 = 0) := by omega
  have hw : (UART_processing b s).1.wave_mode = true := by
    simp [UART_processing, hb, h1, h2, h4, lra_set_amp, set_pwm10, coast_both,
      carrierTop, dutyMap]
  have hsc : (UART_processing b s).1.scale = 0 := by
    simp [UART_processing, hb, h1, h2, h4, lra_set_amp, set_pwm10, coast_both,
      carrierTop, dutyMap]
  have hd : (UART_processing b s).1.dc10 = 0 := by
    simp [UART_processing, hb, h1, h2, h4, lra_set_amp, set_pwm10, coast_both,
      carrierTop, dutyMap]
  have hN := sineTickN_scale_zero n (UART_processing b s).1 hw hsc hd
  exact ⟨hw, hsc, hd, hN.1, hN.2⟩

/-- C7 witness: commit data byte `0x88` (sine, frequency 0) at stage 2 with
duty code 0, followed by three ticks. -/
theorem sine_coast_on_zero_witness :
    (UART_processing 136 { st0 with state := 2 }).1.wave_mode = true ∧
    (UART_processing 136 { st0 with state := 2 }).1.scale = 0 ∧
    (UART_processing 136 { st0 with state := 2 }).1.dc10 = 0 ∧
    (sineTickN 3 (UART_processing 136 { st0 with state := 2 }).1).1.dc10 = 0 ∧
    (sineTickN 3 (UART_processing 136 { st0 with state := 2 }).1).2 =
      (List.replicate 3 [Ev.coast, Ev.pwm 0]).flatten :=
  sine_coast_on_zero { st0 with state := 2 } 136 3 rfl rfl (by decide) (by decide)

/-- Sine-armed state with amplitude scale 8, whose next tick has sample
magnitude 12 and hence forward duty `(8*12 + 64) >> 7 = 1`. -/
def sCex8 : St :=
  { st0 with wave_mode := true, scale := 8, phase_idx := 0, last_sign := 1 }

/-- C8 (counterexample): the minimum-drive floor is not implemented.  At a
sine-armed state with `amplitude_scale = 8` the next tick computes
`duty_fwd = 1`, which is nonzero and below `MIN_DRIVE_TKS = 2`, yet the
duty register is programmed with `carrier_top - duty_fwd = 798`, not with
`carrier_top = 799` (fully off) as the claim requires. -/
theorem sine_min_drive_floor_false :
    0 < sCex8.scale ∧
    sCex8.wave_mode = true ∧
    0 < dutyFwdOf sCex8 ∧
    dutyFwdOf sCex8 < MIN_DRIVE_TKS ∧
    (sineTick sCex8).1.dc10 ≠ carrierTop sCex8 ∧
    (sineTick sCex8).1.dc10 = 798 := by
  decide

/-- C8 (amended): on every Sine Engine tick with nonzero amplitude, the
bridge duty register is programmed with `carrier_top - duty_fwd`, where
`duty_fwd = (amplitude_scale * |sample| + 64) >> 7` (round-half-up of
`amplitude_scale * |sample| / 128`) clamped to `carrier_top` —
unconditionally: no minimum-drive floor is applied (`MIN_DRIVE_TKS` is
defined but unused), so the register equals `carrier_top` (fully off) only
when `duty_fwd = 0`.  The duty write is the last event of the tick. -/
theorem sine_duty_register (s : St)
    (hw : s.wave_mode = true) (hs : s.scale ≠ 0) (hp : s.pr2 ≤ 255) :
    (sineTick s).1.dc10 = carrierTop s - dutyFwdOf s ∧
    (sineTick s).2.getLast? = some (Ev.pwm (carrierTop s - dutyFwdOf s)) := by
  have hle : carrierTop s - dutyFwdOf s ≤ carrierTop s := Nat.sub_le _ _
  have htop : carrierTop s = 4 * (s.pr2 + 1) - 1 := rfl
  have hlt : carrierTop s - dutyFwdOf s < 1024 := by omega
  have hmod : (carrierTop s - dutyFwdOf s) % 1024 = carrierTop s - dutyFwdOf s :=
    Nat.mod_eq_of_lt hlt
  by_cases hg : sgnNext s = s.last_sign
  · constructor
    · simp [sineTick, hw, hs, hg, set_pwm10, hmod]
    · simp [sineTick, hw, hs, hg, hmod]
  · constructor
    · simp [sineTick, hw, hs, hg, set_pwm10, hmod]
    · simp [sineTick, hw, hs, hg, hmod]

/-- C8 witness: at a sine-armed state with `scale = 24` and a sign change
pending, the register value is `carrier_top - duty_fwd`. -/
theorem sine_duty_register_witness :
    (sineTick sWit1).1.dc10 = carrierTop sWit1 - dutyFwdOf sWit1 ∧
    (sineTick sWit1).2.getLast? =
      some (Ev.pwm (carrierTop sWit1 - dutyFwdOf sWit1)) :=
  sine_duty_register sWit1 (by decide) (by decide) (by decide)

/-- C9: receiver fault handling is local and silent.  A frame error makes
the receive step discard the byte without invoking protocol processing —
the state (in particular the stage counter and hence the `addressed` flag)
is unchanged, nothing is transmitted, and the only possible event is the
receiver reset triggered by a simultaneous overrun; an overrun always
resets the receiver first. -/
theorem uart_fault_recovery (s : St) (b : Nat) (oe fe : Bool) :
    (fe = true →
      (rcvStep oe fe b s).1 = s ∧
      (rcvStep oe fe b s).2.countP isTx = 0 ∧
      (rcvStep oe fe b s).2 = (if oe = true then [Ev.rxReset] else [])) ∧
    (oe = true → (rcvStep oe fe b s).2.head? = some Ev.rxReset) := by
  cases oe <;> cases fe <;> simp [rcvStep, isTx]

/-- C9 witness: a byte received with both overrun and frame error set is
discarded, nothing is transmitted, and the receiver is reset. -/
theorem uart_fault_recovery_witness :
    ((rcvStep true true 3 st0).1 = st0 ∧
     (rcvStep true true 3 st0).2.countP isTx = 0 ∧
     (rcvStep true true 3 st0).2 =
       (if (true : Bool) = true then [Ev.rxReset] else [])) ∧
    (rcvStep true true 3 st0).2.head? = some Ev.rxReset :=
  ⟨(uart_fault_recovery st0 3 true true).1 rfl,
   (uart_fault_recovery st0 3 true true).2 rfl⟩

/-- C2 witness: the STOP result and trace at the boot state. -/
theorem stop_effect_order_witness :
    (UART_processing 0 st0).1 =
      { st0 with t1on := false, t1ie := false,
                 ra1pps := 8, ra0pps := 9, lata0 := false, lata1 := false,
                 dc10 := 0, t2on := false, t2ie := false, cwg_en := true,
                 duty_pct := 0, cwg_flag := false, duty_flag := false,
                 square_tick := false, uart_led_flag := true,
                 duty5_raw := 0, state := 0 } ∧
    (UART_processing 0 st0).2 = stopTrace :=
  stop_effect_order st0
